import Mathlib

/-!
Verification of the audio bridging subsystem of solgb_eframe
(src/audio.rs), shallowly embedded in Lean.

Modelling choices:
* `f32` samples are modelled by `ℚ`.  Every sample computation appearing
  in the statements below (multiplication by v/100 for the volumes and
  samples considered, 0.5 * 0.5, s * 1, s * 0) is exact in IEEE `f32`,
  so the rational model agrees with the machine arithmetic there.
* `AudioControl` values (the sample sources) are opaque; we model them by
  a `Nat` identifier.
* The cpal output callback is a closure with captured mutable state
  (`buffer`, `last`, `audio_control`); we model one invocation as a pure
  function from that state, the per-invocation environment (the result of
  the single `try_recv`, the outcome of each refill episode, the per-frame
  volume loads) and the prior contents of the hardware buffer, to the new
  buffer contents and the new closure state.
* The refill spin loop (lines 139-149) is modelled twice, at two levels
  of abstraction: inside the callback each refill episode is an oracle
  outcome (`RefillOutcome`), and separately `spinIdx`/`spinResult` model
  the loop itself against an observed clock, for the termination claim.
-/

namespace SolgbAudio

/-- Outcome of one refill episode inside the output callback
(audio.rs lines 138-151): either the spin loop broke out with a chunk of
samples (`buffer = samples.into_iter()`), or the 20 ms timeout elapsed
and the callback returned early. -/
inductive RefillOutcome where
  | chunk (samples : List ℚ)
  | timeout
deriving Repr, DecidableEq

/-- State captured by the output-callback closure across invocations
(audio.rs lines 113, 116, 123): the draining iterator over the current
decoded chunk (`buffer`), the last raw sample value (`last`, initialised
to `0f32`), and the currently adopted `AudioControl`. -/
structure CBState where
  buffer : List ℚ
  last : ℚ
  audioControl : Option Nat
deriving Repr, DecidableEq

/-- The closure state at stream build time (audio.rs lines 113, 116, 123):
empty buffer iterator, `last = 0`, and `self.audio_control.clone()`. -/
def initState (ac0 : Option Nat) : CBState := ⟨[], 0, ac0⟩

/-- Per-invocation environment of one callback: the result of the single
`try_recv` on the AudioControl channel (line 125), the outcome of the
r-th refill episode during this invocation, and the volume value loaded
at frame i (line 153). -/
structure CBEnv where
  acRecv : Option Nat
  refills : Nat → RefillOutcome
  volume : Nat → Nat

/-- The frame loop of the output callback (audio.rs lines 135-155).
`i` is the frame index, `r` counts refill episodes within this
invocation, `buffer`/`last` are the closure state, and `out` carries the
prior contents of the hardware buffer (an early `return` on timeout, line
147, leaves the remaining entries untouched).  Returns the final buffer
contents together with the final `buffer` iterator and `last`. -/
def renderFrames {α : Type} (conv : ℚ → α) (vol : Nat → Nat)
    (refills : Nat → RefillOutcome) :
    Nat → Nat → List ℚ → ℚ → List α → List α × List ℚ × ℚ
  | _, _, buffer, last, [] => ([], buffer, last)
  | i, r, buffer, last, o :: rest =>
    match buffer with
    | v :: buf =>
      let w := conv (v * ((vol i : ℚ) / 100))
      let res := renderFrames conv vol refills (i + 1) r buf v rest
      (w :: res.1, res.2)
    | [] =>
      match refills r with
      | RefillOutcome.timeout => (o :: rest, [], last)
      | RefillOutcome.chunk samples =>
        match samples with
        | [] =>
          let w := conv (last * ((vol i : ℚ) / 100))
          let res := renderFrames conv vol refills (i + 1) (r + 1) [] last rest
          (w :: res.1, res.2)
        | s :: buf =>
          let w := conv (s * ((vol i : ℚ) / 100))
          let res := renderFrames conv vol refills (i + 1) (r + 1) buf s rest
          (w :: res.1, res.2)

/-- One invocation of the cpal output callback (audio.rs lines 124-156):
a single `try_recv` may adopt a new AudioControl (lines 125-128; note the
buffer iterator is not touched); with no control ever adopted the whole
buffer is filled with the converted silence value `T::from_sample(0.0)`
(lines 130-133); otherwise frames are produced by the frame loop.
`conv` models `T::from_sample` for the negotiated sample type `T`. -/
def callback {α : Type} (conv : ℚ → α) (env : CBEnv) (st : CBState)
    (out : List α) : List α × CBState :=
  let ac := match env.acRecv with
    | some a => some a
    | none => st.audioControl
  match ac with
  | none => (out.map (fun _ => conv 0), ⟨st.buffer, st.last, none⟩)
  | some a =>
    let res := renderFrames conv env.volume env.refills 0 0 st.buffer st.last out
    (res.1, ⟨res.2.1, res.2.2, some a⟩)

/-- `Audio::set_volume` (audio.rs lines 98-103): clamp values above 100
down to 100, then store. -/
def set_volume (volume : Nat) : Nat :=
  if volume > 100 then 100 else volume

/-- The `AtomicU8` volume cell: initialised to 0 (audio.rs line 35); each
`set_volume` call stores the clamped level; a relaxed load returns the
value of the last store. -/
def volumeCell (stores : List Nat) : Nat :=
  stores.foldl (fun _ v => set_volume v) 0

/-- Control-side state relevant to `set_audio_control`: the pending
elements of the unbounded crossbeam channel (oldest first) and the
locally remembered `audio_control` field. -/
structure ControlState where
  acQueue : List Nat
  localAc : Option Nat
deriving Repr, DecidableEq

/-- `Audio::set_audio_control` (audio.rs lines 91-96): remember the
control locally and send it over the unbounded channel.  A send error is
logged and swallowed, so the call is total and always returns to the
caller. -/
def set_audio_control (c : ControlState) (ac : Nat) : ControlState :=
  ⟨c.acQueue ++ [ac], some ac⟩

/-- `try_recv` on the crossbeam channel: removes and returns the oldest
pending element, if any. -/
def try_recv (q : List Nat) : Option Nat × List Nat :=
  match q with
  | [] => (none, [])
  | x :: xs => (some x, xs)

/-- A callback invocation coupled to the hand-off queue: the single
`try_recv` at the top of the callback (audio.rs line 125) consumes at
most the head of the queue; the rest of the invocation never touches the
queue again. -/
def callbackWithQueue {α : Type} (conv : ℚ → α)
    (refills : Nat → RefillOutcome) (vol : Nat → Nat) (q : List Nat)
    (st : CBState) (out : List α) : List α × CBState × List Nat :=
  let rq := try_recv q
  let res := callback conv ⟨rq.1, refills, vol⟩ st out
  (res.1, res.2, rq.2)

/-- The sequence of `try_recv` results over k successive callback
invocations, starting from pending queue q. -/
def drainN (q : List Nat) : Nat → List (Option Nat) × List Nat
  | 0 => ([], q)
  | k + 1 =>
    let rq := try_recv q
    let res := drainN rq.2 k
    (rq.1 :: res.1, res.2)

/-- `TIMEOUT` (audio.rs line 109): `Duration::from_millis(20)`, in
milliseconds. -/
def TIMEOUT_MS : Nat := 20

/-- The refill spin loop (audio.rs lines 139-149) stops at iteration n
when the non-blocking take succeeds there, or when the clock observed at
the end of that iteration exceeds the timeout.  `tryRes n` is the result
of `try_get_audio_buffer` at iteration n and `clock n` the elapsed
milliseconds observed by `Instant::now().duration_since(start)` there. -/
def spinStops (tryRes : Nat → Option (List ℚ)) (clock : Nat → Nat)
    (n : Nat) : Prop :=
  (tryRes n).isSome = true ∨ TIMEOUT_MS < clock n

instance (tryRes : Nat → Option (List ℚ)) (clock : Nat → Nat) :
    DecidablePred (spinStops tryRes clock) := fun n => by
  unfold spinStops; infer_instance

/-- The iteration at which the spin loop exits: the first n at which it
stops. -/
def spinIdx (tryRes : Nat → Option (List ℚ)) (clock : Nat → Nat)
    (h : ∃ n, spinStops tryRes clock n) : Nat :=
  Nat.find h

/-- The result of the spin loop: the chunk obtained at the exit
iteration if the take succeeded there (the take is attempted before the
timeout check, lines 142-145), `none` for the timeout `return`. -/
def spinResult (tryRes : Nat → Option (List ℚ)) (clock : Nat → Nat)
    (h : ∃ n, spinStops tryRes clock n) : Option (List ℚ) :=
  tryRes (spinIdx tryRes clock h)

/-- A host device as seen by `Audio::new`: its default output config,
when a supported one exists. -/
structure HostDevice where
  defaultOutputConfig : Option Nat
deriving Repr, DecidableEq

/-- A host as seen by `Audio::new`: its default output device, when one
exists. -/
structure Host where
  defaultOutputDevice : Option HostDevice
deriving Repr, DecidableEq

/-- The parts of the `Audio` struct lifecycle state the stream claims
are about: the current registration (identified by its build generation)
and how many registrations have been constructed so far. -/
structure AudioSt where
  config : Nat
  stream : Option Nat
  builds : Nat
deriving Repr, DecidableEq

/-- `Audio::setup_stream` / `setup` (audio.rs lines 51-65, 105-167):
assigns a freshly built stream to `self.stream`, dropping (tearing down)
the previous registration; `buildOk` models `build_output_stream`
succeeding (the result is kept via `.ok()`, line 166). -/
def setup_stream (a : AudioSt) (buildOk : Bool) : AudioSt :=
  ⟨a.config, if buildOk then some (a.builds + 1) else none, a.builds + 1⟩

/-- `Audio::new` (audio.rs lines 28-49): unwraps the default output
device and its default config — a missing device or unsupported config
panics (modelled as `Except.error`), aborting construction; on success
the stream is set up once. -/
def audioNew (host : Host) (buildOk : Bool) : Except String AudioSt :=
  match host.defaultOutputDevice with
  | none => Except.error "called Option::unwrap on a None value"
  | some d =>
    match d.defaultOutputConfig with
    | none => Except.error "called Option::unwrap on a None value"
    | some cfg => Except.ok (setup_stream ⟨cfg, none, 0⟩ buildOk)

/-- `Audio::play` (audio.rs lines 67-78): first calls `setup_stream`,
rebuilding the registration, then forwards a best-effort play request to
the (new) handle; a play failure is logged only, so the resulting state
is that of the rebuild. -/
def play (a : AudioSt) (buildOk : Bool) : AudioSt :=
  setup_stream a buildOk

/-- `Audio::pause` (audio.rs lines 80-89): forwards a best-effort pause
request to the existing handle (`&self` receiver); no teardown and no
rebuild, failures are logged only, so the state is unchanged. -/
def pause (a : AudioSt) : AudioSt := a

/-- Helper: with a constant volume v, the frame loop first drains the
pre-existing buffer; as long as the hardware buffer is no longer than the
decoded buffer, every produced frame comes from the decoded buffer, in
order. -/
lemma renderFrames_drain {α : Type} (conv : ℚ → α) (v : Nat)
    (refills : Nat → RefillOutcome) :
    ∀ (out : List α) (buf : List ℚ) (i r : Nat) (last : ℚ),
      out.length ≤ buf.length →
      (renderFrames conv (fun _ => v) refills i r buf last out).1
        = (buf.take out.length).map (fun s => conv (s * ((v : ℚ) / 100)))
  | [], _, _, _, _, _ => by simp [renderFrames]
  | _ :: _, [], _, _, _, h => by simp at h
  | _ :: rest, s :: buf, i, r, _, h => by
    simp only [renderFrames, List.length_cons, List.take_succ_cons, List.map_cons]
    exact congrArg _ (renderFrames_drain conv v refills rest buf (i + 1) r s
      (by simpa using h))

/-- Helper: the results of k successive try_recv operations are exactly
the first k published controls, in publish order, padded with none once
the queue runs dry; the remaining queue is what is left after dropping
them. -/
lemma drainN_spec (k : Nat) : ∀ q : List Nat,
    (drainN q k).1 = (q.take k).map some ++ List.replicate (k - q.length) none
  ∧ (drainN q k).2 = q.drop k := by
  induction k with
  | zero => intro q; simp [drainN]
  | succ k ih =>
    intro q
    cases q with
    | nil =>
      have h := ih []
      simp [drainN, try_recv, h.1, h.2, List.replicate_succ]
    | cons x xs =>
      have h := ih xs
      simp [drainN, try_recv, h.1, h.2, Nat.succ_sub_succ]

/-- C3: set_volume stores the level clamped into [0,100]: any level
above 100 is stored as exactly 100, a level already in [0,100] is stored
unchanged, and the cell read by the render loop always holds the last
clamped value. -/
theorem c3_set_volume_clamps (v : Nat) (stores : List Nat) :
    (100 < v → set_volume v = 100)
  ∧ (v ≤ 100 → set_volume v = v)
  ∧ volumeCell (stores ++ [v]) = set_volume v := by
  refine ⟨?_, ?_, ?_⟩
  · intro h
    unfold set_volume
    split
    · rfl
    · omega
  · intro h
    unfold set_volume
    split
    · omega
    · rfl
  · simp [volumeCell, List.foldl_append]

/-- Witness for C3 at level 150 after an earlier store of 37. -/
theorem c3_set_volume_clamps_witness :
    set_volume 150 = 100 ∧ volumeCell [37, 150] = 100 := by
  have h := c3_set_volume_clamps 150 [37]
  exact ⟨h.1 (by norm_num), (h.2.2).trans (h.1 (by norm_num))⟩

/-- C4: before any source has ever been adopted (no control in the
closure and none received), every frame of the output buffer is written
with the converted silence value conv 0 — the model of
T::from_sample(0.0) — and the callback returns at once (the refill
oracle is never consulted, so nothing blocks). -/
theorem c4_never_adopted_silence {α : Type} (conv : ℚ → α)
    (refills : Nat → RefillOutcome) (vol : Nat → Nat) (buf : List ℚ)
    (last : ℚ) (out : List α) :
    (callback conv ⟨none, refills, vol⟩ ⟨buf, last, none⟩ out).1
      = out.map (fun _ => conv 0)
  ∧ ∀ x ∈ (callback conv ⟨none, refills, vol⟩ ⟨buf, last, none⟩ out).1,
      x = conv 0 := by
  have h1 : (callback conv ⟨none, refills, vol⟩ ⟨buf, last, none⟩ out).1
      = out.map (fun _ => conv 0) := rfl
  refine ⟨h1, ?_⟩
  intro x hx
  rw [h1] at hx
  rcases List.mem_map.1 hx with ⟨a, _, h2⟩
  exact h2.symm

/-- Witness for C4: a two-frame buffer with stale contents 7 is fully
overwritten with silence when no source was ever adopted. -/
theorem c4_never_adopted_silence_witness :
    (callback (fun q => q) ⟨none, fun _ => RefillOutcome.timeout, fun _ => 100⟩
        ⟨[], 0, none⟩ [7, 7]).1 = [0, 0] := by
  have h := c4_never_adopted_silence (fun q => q)
    (fun _ => RefillOutcome.timeout) (fun _ => 100) [] 0 [7, 7]
  exact h.1.trans rfl

/-- C1 counterexample: with an active source, an exhausted buffer and a
refill that times out, the callback leaves the two output frames at
their prior contents 7 — not at the silence value 0 — refuting the
claimed explicit silence fill of the remainder. -/
theorem c1_counterexample :
    (callback (fun q => q) ⟨none, fun _ => RefillOutcome.timeout, fun _ => 100⟩
        ⟨[], 0, some 0⟩ [7, 7]).1 = [7, 7]
  ∧ ((7 : ℚ) ≠ 0) := by
  exact ⟨rfl, by norm_num⟩

/-- C1 (amended): if the refill timeout elapses with no data from the
active source, the callback returns immediately and the remaining (not
yet written) output frames keep whatever contents the hardware buffer
already had — they are not explicitly filled with silence.  The underrun
does not panic or propagate: the callback returns normally, with the
closure state (exhausted buffer, held last sample, active source)
preserved deterministically. -/
theorem c1_timeout_returns_early {α : Type} (conv : ℚ → α)
    (vol : Nat → Nat) (a : Nat) (last : ℚ) (out : List α)
    (v : ℚ) (o1 o2 : α) (rest : List α) :
    (callback conv ⟨none, fun _ => RefillOutcome.timeout, vol⟩
        ⟨[], last, some a⟩ out)
      = (out, ⟨[], last, some a⟩)
  ∧ (callback conv ⟨none, fun _ => RefillOutcome.timeout, vol⟩
        ⟨[v], last, some a⟩ (o1 :: o2 :: rest)).1
      = conv (v * ((vol 0 : ℚ) / 100)) :: o2 :: rest := by
  constructor
  · cases out with
    | nil => rfl
    | cons o tl => rfl
  · rfl

/-- C2 counterexample: the old source (id 1) still has the buffered
sample 3 when the new source (id 2, emitting 5) is adopted; the very
next callback outputs [3, 5] at unit volume, mixing an old-source sample
with a new-source one — refuting the claim that the callback after
publish contains only new-source samples. -/
theorem c2_counterexample :
    (callback (fun q => q) ⟨some 2, fun _ => RefillOutcome.chunk [5], fun _ => 100⟩
        ⟨[3], 0, some 1⟩ [0, 0]).1 = [3, 5]
  ∧ ((3 : ℚ) ≠ 5) := by
  constructor
  · show [(3 : ℚ) * ((100 : ℚ) / 100), (5 : ℚ) * ((100 : ℚ) / 100)] = [3, 5]
    norm_num
  · norm_num

/-- C2 (amended): adopting a newly published source replaces the active
source identity immediately, but the samples already buffered from the
previous source are not discarded: they are drained first, so the
callback immediately following publish can still emit old-source
samples; only after the old buffer is exhausted does data come from the
new source. -/
theorem c2_adoption_keeps_old_buffer {α : Type} (conv : ℚ → α)
    (refills : Nat → RefillOutcome) (v : Nat) (newAc : Nat)
    (oldAc : Option Nat) (last : ℚ) (out : List α) (buf : List ℚ)
    (h : out.length ≤ buf.length) :
    (callback conv ⟨some newAc, refills, fun _ => v⟩ ⟨buf, last, oldAc⟩ out).1
      = (buf.take out.length).map (fun s => conv (s * ((v : ℚ) / 100)))
  ∧ (callback conv ⟨some newAc, refills, fun _ => v⟩
        ⟨buf, last, oldAc⟩ out).2.audioControl = some newAc := by
  exact ⟨renderFrames_drain conv v refills out buf 0 0 last h, rfl⟩

/-- Witness for C2 (amended): one old buffered sample 3 survives the
adoption of source 2 and is emitted by the following callback. -/
theorem c2_adoption_keeps_old_buffer_witness :
    (callback (fun q => q) ⟨some 2, fun _ => RefillOutcome.timeout, fun _ => 100⟩
        ⟨[3], 0, some 1⟩ [0]).1 = [3]
  ∧ (callback (fun q => q) ⟨some 2, fun _ => RefillOutcome.timeout, fun _ => 100⟩
        ⟨[3], 0, some 1⟩ [0]).2.audioControl = some 2 := by
  have h := c2_adoption_keeps_old_buffer (fun q => q)
    (fun _ => RefillOutcome.timeout) 100 2 (some 1) 0 [0] [3] (by norm_num)
  refine ⟨h.1.trans ?_, h.2⟩
  norm_num

/-- C5: provided the wall clock eventually exceeds the 20 ms timeout
(which real time always does), the refill spin loop has an exit
iteration: before it every take failed within the allotted time, the
loop exits with the chunk as soon as the non-blocking take succeeds, and
otherwise it exits at the first observation past the timeout bound, so
no iteration starts after the clock has exceeded TIMEOUT_MS.  All other
operations of the callback path are total functions of their inputs in
this model, so the spin is the only wait, and it carries this bound. -/
theorem c5_spin_terminates_bounded (tryRes : Nat → Option (List ℚ))
    (clock : Nat → Nat) (h : ∃ n, TIMEOUT_MS < clock n) :
    ∃ hs : ∃ n, spinStops tryRes clock n,
      (∀ m, m < spinIdx tryRes clock hs →
          tryRes m = none ∧ clock m ≤ TIMEOUT_MS)
    ∧ (∀ c, tryRes (spinIdx tryRes clock hs) = some c →
          spinResult tryRes clock hs = some c)
    ∧ (tryRes (spinIdx tryRes clock hs) = none →
          TIMEOUT_MS < clock (spinIdx tryRes clock hs) ∧
          spinResult tryRes clock hs = none) := by
  have hs : ∃ n, spinStops tryRes clock n := h.imp fun n hn => Or.inr hn
  refine ⟨hs, ?_, ?_, ?_⟩
  · intro m hm
    have h2 := Nat.find_min hs (by exact hm)
    unfold spinStops at h2
    push_neg at h2
    refine ⟨?_, h2.2⟩
    cases hmm : tryRes m with
    | none => rfl
    | some c => exact absurd (by simp [hmm]) h2.1
  · intro c hc
    unfold spinResult
    rw [show spinIdx tryRes clock hs = Nat.find hs from rfl] at hc ⊢
    exact hc
  · intro hc
    have h2 := Nat.find_spec hs
    unfold spinStops at h2
    rcases h2 with h2 | h2
    · rw [show spinIdx tryRes clock hs = Nat.find hs from rfl] at hc
      rw [hc] at h2
      simp at h2
    · exact ⟨h2, by unfold spinResult; exact hc⟩

/-- Witness for C5: a source that is never ready, against the identity
clock; the spin exits with the timeout result. -/
theorem c5_spin_terminates_bounded_witness :
    ∃ hs : ∃ n, spinStops (fun _ => (none : Option (List ℚ))) (fun n => n) n,
      spinResult (fun _ => none) (fun n => n) hs = none := by
  obtain ⟨hs, h1, h2, h3⟩ := c5_spin_terminates_bounded (fun _ => none)
    (fun n => n) ⟨21, by norm_num [TIMEOUT_MS]⟩
  exact ⟨hs, (h3 rfl).2⟩

/-- C6: for a volume v in [0,100] and a buffered sample s, the value
written is conv (s * (v/100)); volume 0 yields silence, volume 100
leaves a floating-format sample unchanged (conv is the identity for
floating formats), and the chunk [1/2, -1/2, 1/2, -1/2] at volume 50 on
a floating format produces exactly [1/4, -1/4, 1/4, -1/4]. -/
theorem c6_volume_scaling (v : Nat) (s : ℚ) (hv : v ≤ 100) :
    (callback (fun q => q) ⟨none, fun _ => RefillOutcome.timeout, fun _ => v⟩
        ⟨[s], 0, some 0⟩ [0]).1 = [s * ((v : ℚ) / 100)]
  ∧ (callback (fun q => q) ⟨none, fun _ => RefillOutcome.timeout, fun _ => 0⟩
        ⟨[s], 0, some 0⟩ [0]).1 = [0]
  ∧ (callback (fun q => q) ⟨none, fun _ => RefillOutcome.timeout, fun _ => 100⟩
        ⟨[s], 0, some 0⟩ [0]).1 = [s]
  ∧ (callback (fun q => q)
        ⟨none, fun _ => RefillOutcome.chunk [1/2, -1/2, 1/2, -1/2], fun _ => 50⟩
        ⟨[], 0, some 0⟩ [0, 0, 0, 0]).1 = [1/4, -1/4, 1/4, -1/4] := by
  refine ⟨rfl, ?_, ?_, ?_⟩
  · show [s * ((0 : ℚ) / 100)] = [0]
    norm_num
  · show [s * ((100 : ℚ) / 100)] = [s]
    norm_num
  · show [(1 : ℚ) / 2 * ((50 : ℚ) / 100), (-1 : ℚ) / 2 * ((50 : ℚ) / 100),
        (1 : ℚ) / 2 * ((50 : ℚ) / 100), (-1 : ℚ) / 2 * ((50 : ℚ) / 100)]
      = [1 / 4, -1 / 4, 1 / 4, -1 / 4]
    norm_num

/-- Witness for C6 at volume 50 and sample 1/2. -/
theorem c6_volume_scaling_witness :
    (callback (fun q => q) ⟨none, fun _ => RefillOutcome.timeout, fun _ => 50⟩
        ⟨[1 / 2], 0, some 0⟩ [0]).1 = [(1 : ℚ) / 2 * ((50 : ℚ) / 100)] := by
  have h := (c6_volume_scaling 50 (1 / 2) (by norm_num)).1
  simpa using h

/-- C7 counterexample: on a host with no default output device,
Audio::new panics (the unwrap on None, modelled as Except.error) instead
of constructing a soundless Audio — the application does not continue
without sound, refuting the claim. -/
theorem c7_counterexample :
    audioNew ⟨none⟩ true
      = Except.error "called Option::unwrap on a None value" := rfl

/-- C7 (amended): when device negotiation finds no output device or no
supported format, Audio::new panics via unwrap, aborting construction
(and with it the process that called it); the failure is hit once at
construction and never retried.  Only when both unwraps succeed is an
Audio built, and then a stream-build failure is the non-fatal case: the
Audio is created with stream none. -/
theorem c7_device_failure_panics (buildOk : Bool) (cfg : Nat) :
    audioNew ⟨none⟩ buildOk
      = Except.error "called Option::unwrap on a None value"
  ∧ audioNew ⟨some ⟨none⟩⟩ buildOk
      = Except.error "called Option::unwrap on a None value"
  ∧ audioNew ⟨some ⟨some cfg⟩⟩ buildOk
      = Except.ok ⟨cfg, if buildOk then some 1 else none, 1⟩ := by
  refine ⟨rfl, rfl, ?_⟩
  cases buildOk <;> rfl

/-- C8 counterexample: starting from a state whose registration is
generation 1, a play() call leaves the registration at generation 2 with
the build counter advanced — play() tears down and reconstructs the
registration, refuting the claim that only rebuild() reconstructs it. -/
theorem c8_counterexample :
    play ⟨0, some 1, 1⟩ true = ⟨0, some 2, 2⟩
  ∧ (play ⟨0, some 1, 1⟩ true).stream ≠ (⟨0, some 1, 1⟩ : AudioSt).stream := by
  refine ⟨rfl, ?_⟩
  simp [play, setup_stream]

/-- C8 (amended): play() always rebuilds the stream registration — it is
exactly setup_stream followed by a best-effort start request on the new
handle, incrementing the build generation every call — while pause()
only forwards a best-effort stop to the existing handle and leaves the
registration untouched; there is no separate rebuild() operation. -/
theorem c8_play_rebuilds (a : AudioSt) (buildOk : Bool) :
    play a buildOk = setup_stream a buildOk
  ∧ (play a buildOk).builds = a.builds + 1
  ∧ pause a = a :=
  ⟨rfl, rfl, rfl⟩

/-- C9: each callback invocation performs a single try_recv, so at most
the head of the pending queue is consumed per callback and the rest of
the queue is untouched; set_audio_control is total — it always returns
to the caller with the control enqueued (a send error is swallowed) —
and successive callbacks service pending sources in FIFO publish
order. -/
theorem c9_single_consumption_fifo {α : Type} (conv : ℚ → α)
    (refills : Nat → RefillOutcome) (vol : Nat → Nat) (q : List Nat)
    (st : CBState) (out : List α) (c : ControlState) (ac : Nat) :
    (callbackWithQueue conv refills vol q st out).2.2 = q.drop 1
  ∧ set_audio_control c ac = ⟨c.acQueue ++ [ac], some ac⟩
  ∧ (∀ k, (drainN q k).1
        = (q.take k).map some ++ List.replicate (k - q.length) none)
  ∧ (∀ k, (drainN q k).2 = q.drop k) := by
  refine ⟨?_, rfl, fun k => (drainN_spec k q).1, fun k => (drainN_spec k q).2⟩
  cases q <;> rfl

/-- C10: the held sample last is initialised to 0 before any sample has
been emitted; when a refill succeeds but returns an empty chunk, the
frame written is conv (last * v/100) — the previous raw sample again,
not silence — with last left unchanged; and adopting a new source does
not reset the held value. -/
theorem c10_sample_hold {α : Type} (conv : ℚ → α) (v : Nat) (last : ℚ)
    (a newAc oldAc : Nat) (ac0 : Option Nat) (o : α) :
    (initState ac0).last = 0
  ∧ (callback conv ⟨none, fun _ => RefillOutcome.chunk [], fun _ => v⟩
        ⟨[], last, some a⟩ [o]).1 = [conv (last * ((v : ℚ) / 100))]
  ∧ (callback conv ⟨none, fun _ => RefillOutcome.chunk [], fun _ => v⟩
        ⟨[], last, some a⟩ [o]).2.last = last
  ∧ (callback conv ⟨some newAc, fun _ => RefillOutcome.chunk [], fun _ => v⟩
        ⟨[], last, some oldAc⟩ [o]).1 = [conv (last * ((v : ℚ) / 100))] :=
  ⟨rfl, rfl, rfl, rfl⟩

end SolgbAudio
